import Mathlib

/-!
Verification of the SprintSync single-page client (`src/App.js`).

The file shallowly embeds the state-reconciliation logic of the React
component: the application state held in the `useState` hooks, the event
handlers that mutate it, and the network requests they issue.  Network
calls are modelled by explicit parameters (a success flag plus the data
the server would return on success), and each handler returns the new
application state together with the list of requests it issued, in
order.  The response-shape sniffing in `fetchTasks` is additionally
modelled at the level of raw JavaScript values, since it branches on JS
truthiness of a possibly absent field.
-/

namespace SprintSync

/-- A JavaScript value, as far as the response-shape sniffing in
`fetchTasks` (`response.data.results || response.data`) needs: the
parse distinguishes objects with a `results` field from everything
else, and branches on JS truthiness. -/
inductive JsVal where
  | jundefined : JsVal
  | jnull : JsVal
  | jbool : Bool → JsVal
  | jnum : Int → JsVal
  | jstr : String → JsVal
  | jarr : List JsVal → JsVal
  | jobj : List (String × JsVal) → JsVal

/-- JS truthiness: `undefined`, `null`, `false`, `0` and the empty
string are falsy; every object and array (even an empty array) is
truthy. -/
def JsVal.truthy : JsVal → Bool
  | .jundefined => false
  | .jnull => false
  | .jbool b => b
  | .jnum n => n != 0
  | .jstr s => s != ""
  | .jarr _ => true
  | .jobj _ => true

/-- JS property read `v.name`: on an object, the first binding of the
field (or `undefined` when the field is absent); on any non-object
value, `undefined`. -/
def JsVal.getField : JsVal → String → JsVal
  | .jobj fields, name =>
    match fields.find? (fun p => p.1 == name) with
    | some p => p.2
    | none => .jundefined
  | _, _ => .jundefined

/-- The JS short-circuit disjunction `a || b`: `a` when truthy,
otherwise `b`. -/
def jsOr (a b : JsVal) : JsVal :=
  if a.truthy then a else b

/-- The value `fetchTasks` stores into the task collection
(`App.js` line 37): `response.data.results || response.data`. -/
def fetchTasksParse (data : JsVal) : JsVal :=
  jsOr (data.getField "results") data

/-- One task record, with the fields the client reads and writes. -/
structure Task where
  id : Nat
  title : String
  description : String
  status : String
  total_minutes : Int
deriving DecidableEq

/-- The draft the modal submits on save: all task fields except the
server-assigned `id`. -/
structure TaskDraft where
  title : String
  description : String
  status : String
  total_minutes : Int
deriving DecidableEq

/-- An AI daily-plan suggestion as returned by the backend. -/
structure Suggestion where
  plan : String
  estimated_hours : Int
deriving DecidableEq

/-- The authenticated user's profile (only `username` is read). -/
structure User where
  username : String
deriving DecidableEq

/-- The application state: the six `useState` hooks of the `App`
component plus the two `localStorage` token slots. -/
structure AppState where
  tasks : List Task
  showModal : Bool
  editingTask : Option Task
  aiSuggestion : Option Suggestion
  loading : Bool
  user : Option User
  accessToken : Option String
  refreshToken : Option String
deriving DecidableEq

/-- A network request issued by a handler, in the order issued. -/
inductive Request where
  | getTasks : Request
  | getUserProfile : Request
  | postLogin : String → String → Request
  | patchStatus : Nat → String → Request
  | putTask : Nat → TaskDraft → Request
  | postTask : TaskDraft → Request
  | deleteTaskReq : Nat → Request
  | postAiPlan : Request
deriving DecidableEq

/-- `fetchTasks`: issues the list request; on success replaces the whole
collection with the server's collection, on failure only logs. -/
def fetchTasks (s : AppState) (ok : Bool) (serverTasks : List Task) :
    AppState × List Request :=
  (if ok then { s with tasks := serverTasks } else s, [Request.getTasks])

/-- `handleLogout`: removes both stored tokens, clears the user and
clears the task collection; no confirmation, no network call. -/
def handleLogout (s : AppState) : AppState :=
  { s with accessToken := none, refreshToken := none, user := none, tasks := [] }

/-- `handleStatusChange`: issues the PATCH; on success maps over the
collection replacing the `status` of every record whose `id` matches
(by an object spread, keeping the other fields); on failure only logs.
No list request is issued in either case. -/
def handleStatusChange (s : AppState) (taskId : Nat) (newStatus : String)
    (ok : Bool) : AppState × List Request :=
  if ok then
    ({ s with tasks := s.tasks.map fun task =>
        if task.id = taskId then { task with status := newStatus } else task },
     [Request.patchStatus taskId newStatus])
  else
    (s, [Request.patchStatus taskId newStatus])

/-- `handleSaveTask`: PUT to the edited task's id when a task is being
edited, otherwise POST a new task; on success close the modal, discard
the edit buffer and refresh the list; on failure only log (the modal
stays open and the buffer is kept, since the `await` throws before the
state updates). -/
def handleSaveTask (s : AppState) (taskData : TaskDraft) (saveOk fetchOk : Bool)
    (serverTasks : List Task) : AppState × List Request :=
  let req := match s.editingTask with
    | some t => Request.putTask t.id taskData
    | none => Request.postTask taskData
  if saveOk then
    let s1 := { s with showModal := false, editingTask := none }
    let refreshed := fetchTasks s1 fetchOk serverTasks
    (refreshed.1, req :: refreshed.2)
  else
    (s, [req])

/-- `handleDeleteTask`: asks `window.confirm` first; when declined,
nothing happens at all; when accepted, issues the DELETE and on success
refreshes the list (on failure only logs). -/
def handleDeleteTask (s : AppState) (taskId : Nat)
    (confirmed deleteOk fetchOk : Bool) (serverTasks : List Task) :
    AppState × List Request :=
  if confirmed then
    if deleteOk then
      let refreshed := fetchTasks s fetchOk serverTasks
      (refreshed.1, Request.deleteTaskReq taskId :: refreshed.2)
    else
      (s, [Request.deleteTaskReq taskId])
  else
    (s, [])

/-- The fixed suggestion stored when the AI plan request fails. -/
def fallbackSuggestion : Suggestion :=
  { plan := "Could not generate plan. Please try again later.", estimated_hours := 0 }

/-- `handleAiSuggestion`: sets the loading flag, issues the plan
request, stores the server suggestion on success or the fixed fallback
on failure, and clears the loading flag in the `finally` step. -/
def handleAiSuggestion (s : AppState) (ok : Bool) (serverSuggestion : Suggestion) :
    AppState × List Request :=
  let s1 := { s with loading := true }
  let s2 :=
    if ok then { s1 with aiSuggestion := some serverSuggestion }
    else { s1 with aiSuggestion := some fallbackSuggestion }
  ({ s2 with loading := false }, [Request.postAiPlan])

/-- The close button of the suggestion panel: `setAiSuggestion(null)`. -/
def dismissSuggestion (s : AppState) : AppState :=
  { s with aiSuggestion := none }

/-- Which top-level view `App` renders. -/
inductive View where
  | loginView : View
  | mainView : View
deriving DecidableEq

/-- The top-level render rule (`App.js` line 127): with no user, only
the login form is rendered; otherwise the main view. -/
def render (s : AppState) : View :=
  match s.user with
  | none => View.loginView
  | some _ => View.mainView

/-- One entry of the `statusOptions` table in `TaskItem`. -/
structure StatusOption where
  value : String
  label : String
  color : String
deriving DecidableEq

/-- The `statusOptions` table of `TaskItem`. -/
def statusOptions : List StatusOption :=
  [{ value := "TO_DO", label := "To Do", color := "#ffbe0b" },
   { value := "IN_PROGRESS", label := "In Progress", color := "#3a86ff" },
   { value := "DONE", label := "Done", color := "#06d6a0" }]

/-- `getStatusInfo`: the first option whose `value` equals the given
status, falling back to `statusOptions[0]` when none matches. -/
def getStatusInfo (statusValue : String) : StatusOption :=
  (statusOptions.find? fun option => option.value == statusValue).getD
    (statusOptions.get ⟨0, by decide⟩)

/-- An empty application state, used to build concrete scenarios. -/
def baseState : AppState :=
  { tasks := [], showModal := false, editingTask := none, aiSuggestion := none,
    loading := false, user := none, accessToken := none, refreshToken := none }

/-- Claim C6: logout clears both the session (user and stored tokens)
and the task collection unconditionally, from any application state, and
the subsequent render shows only the login view. -/
theorem logout_clears_session_and_tasks (s : AppState) :
    (handleLogout s).user = none ∧
    (handleLogout s).tasks = [] ∧
    (handleLogout s).accessToken = none ∧
    (handleLogout s).refreshToken = none ∧
    render (handleLogout s) = View.loginView := by
  refine ⟨rfl, rfl, rfl, rfl, ?_⟩
  simp [handleLogout, render]

/-- Claim C8: dismissing the AI suggestion is idempotent: after one
dismiss the suggestion is absent, after a second dismiss it is still
absent, and the second dismiss produces exactly the state the first one
produced. -/
theorem dismiss_idempotent (s : AppState) :
    (dismissSuggestion s).aiSuggestion = none ∧
    (dismissSuggestion (dismissSuggestion s)).aiSuggestion = none ∧
    dismissSuggestion (dismissSuggestion s) = dismissSuggestion s := by
  refine ⟨rfl, rfl, rfl⟩

/-- Claim C5: after an AI plan request settles, the stored suggestion is
never absent: on success it is the server's suggestion, on failure it is
the fixed fallback whose plan is the fixed message and whose
`estimated_hours` is `0`; and in both outcomes the loading flag ends up
cleared. -/
theorem aiSuggestion_never_absent (s : AppState) (ok : Bool) (sv : Suggestion) :
    ((handleAiSuggestion s ok sv).1).aiSuggestion =
      some (if ok then sv else fallbackSuggestion) ∧
    fallbackSuggestion.plan = "Could not generate plan. Please try again later." ∧
    fallbackSuggestion.estimated_hours = 0 ∧
    ((handleAiSuggestion s ok sv).1).loading = false := by
  cases ok <;> exact ⟨rfl, rfl, rfl, rfl⟩

/-- Claim C2: after a successful create, update, or delete (with the
subsequent list request succeeding), the local task collection equals
exactly the collection the server's list request returned, whatever the
prior local collection was; and the list request is indeed issued after
the mutating request. -/
theorem crud_full_refresh (s : AppState) (taskData : TaskDraft) (taskId : Nat)
    (serverTasks : List Task) :
    ((handleSaveTask s taskData true true serverTasks).1).tasks = serverTasks ∧
    ((handleDeleteTask s taskId true true true serverTasks).1).tasks = serverTasks ∧
    Request.getTasks ∈ (handleSaveTask s taskData true true serverTasks).2 ∧
    Request.getTasks ∈ (handleDeleteTask s taskId true true true serverTasks).2 := by
  cases h : s.editingTask <;>
    simp [handleSaveTask, handleDeleteTask, fetchTasks, h]

/-- Claim C4 (counterexample): when the save call fails, the modal stays
open and the edit buffer is kept: from a state with the modal open and a
task being edited, a failed `handleSaveTask` leaves `showModal` true and
`editingTask` present, refuting that the modal closes and the buffer is
discarded regardless of success or failure. -/
theorem saveFailure_keeps_modal_counterexample :
    (((handleSaveTask
        { baseState with showModal := true,
                         editingTask := some ⟨5, "a", "", "TO_DO", 30⟩ }
        ⟨"a", "", "DONE", 30⟩ false true []).1).showModal = true) ∧
    (((handleSaveTask
        { baseState with showModal := true,
                         editingTask := some ⟨5, "a", "", "TO_DO", 30⟩ }
        ⟨"a", "", "DONE", 30⟩ false true []).1).editingTask =
      some ⟨5, "a", "", "TO_DO", 30⟩) := by
  exact ⟨rfl, rfl⟩

/-- Claim C4 (amended): after a SUCCESSFUL save the modal is closed and
the edit buffer is discarded (in both create and edit mode, whether or
not the follow-up refresh succeeds); after a failed save the state is
entirely unchanged, so the modal stays open and the buffer is kept. -/
theorem saveTask_modal_behavior (s : AppState) (d : TaskDraft) (fetchOk : Bool)
    (serverTasks : List Task) :
    ((handleSaveTask s d true fetchOk serverTasks).1).showModal = false ∧
    ((handleSaveTask s d true fetchOk serverTasks).1).editingTask = none ∧
    (handleSaveTask s d false fetchOk serverTasks).1 = s := by
  cases h : s.editingTask <;> cases fetchOk <;>
    simp [handleSaveTask, fetchTasks, h]

/-- Claim C1: when the collection holds exactly one record with the
given id, a successful `handleStatusChange` keeps the collection's
length, replaces only the matching record's `status` with the new
status (keeping its id, title, description and minutes and every
non-matching record unchanged), and issues exactly the one PATCH
request — in particular no list-refresh request. -/
theorem changeStatus_frame (s : AppState) (taskId : Nat) (newStatus : String)
    (hone : s.tasks.countP (fun t => t.id == taskId) = 1) :
    ((handleStatusChange s taskId newStatus true).1).tasks.length = s.tasks.length ∧
    (∀ i (hi : i < s.tasks.length)
        (hj : i < ((handleStatusChange s taskId newStatus true).1).tasks.length),
      (((handleStatusChange s taskId newStatus true).1).tasks[i]).id =
          (s.tasks[i]).id ∧
      (((handleStatusChange s taskId newStatus true).1).tasks[i]).title =
          (s.tasks[i]).title ∧
      (((handleStatusChange s taskId newStatus true).1).tasks[i]).description =
          (s.tasks[i]).description ∧
      (((handleStatusChange s taskId newStatus true).1).tasks[i]).total_minutes =
          (s.tasks[i]).total_minutes ∧
      (((handleStatusChange s taskId newStatus true).1).tasks[i]).status =
          (if (s.tasks[i]).id = taskId then newStatus else (s.tasks[i]).status)) ∧
    (handleStatusChange s taskId newStatus true).2 =
      [Request.patchStatus taskId newStatus] ∧
    Request.getTasks ∉ (handleStatusChange s taskId newStatus true).2 := by
  have hmap : ((handleStatusChange s taskId newStatus true).1).tasks =
      s.tasks.map (fun t =>
        if t.id = taskId then { t with status := newStatus } else t) := by
    simp [handleStatusChange]
  refine ⟨by simp [hmap], ?_, by simp [handleStatusChange], by simp [handleStatusChange]⟩
  intro i hi hj
  simp only [hmap, List.getElem_map]
  by_cases hcase : (s.tasks[i]).id = taskId <;> simp [hcase]

/-- Claim C1 witness: the spec's scenario, changing the status of task 5
to DONE on a two-task collection in which exactly one record has id 5. -/
theorem changeStatus_frame_witness :
    (({ baseState with
          tasks := [⟨5, "a", "", "TO_DO", 30⟩, ⟨7, "b", "", "DONE", 60⟩] } :
        AppState).tasks.countP (fun t => t.id == 5) = 1) ∧
    ((handleStatusChange
        { baseState with
            tasks := [⟨5, "a", "", "TO_DO", 30⟩, ⟨7, "b", "", "DONE", 60⟩] }
        5 "DONE" true).1).tasks.length =
      ({ baseState with
           tasks := [⟨5, "a", "", "TO_DO", 30⟩, ⟨7, "b", "", "DONE", 60⟩] } :
         AppState).tasks.length :=
  ⟨by decide,
   (changeStatus_frame
      { baseState with
          tasks := [⟨5, "a", "", "TO_DO", 30⟩, ⟨7, "b", "", "DONE", 60⟩] }
      5 "DONE" (by decide)).1⟩

/-- Claim C3 (counterexample): on the response object whose `results`
field is present but null, the field is not undefined, yet the parse
does NOT take the primary branch — it falls back to the whole response
value.  This refutes the claim that the bare response value is used only
when the primary is undefined. -/
theorem listShape_undef_counterexample :
    (JsVal.jobj [("results", JsVal.jnull)]).getField "results" ≠ JsVal.jundefined ∧
    fetchTasksParse (JsVal.jobj [("results", JsVal.jnull)]) ≠
      (JsVal.jobj [("results", JsVal.jnull)]).getField "results" ∧
    fetchTasksParse (JsVal.jobj [("results", JsVal.jnull)]) =
      JsVal.jobj [("results", JsVal.jnull)] := by
  refine ⟨?_, ?_, rfl⟩ <;>
    simp [fetchTasksParse, jsOr, JsVal.getField, JsVal.truthy]

/-- Claim C3 (amended): refresh replaces the entire local collection
with the wrapper's `results` field when that field is truthy, and with
the bare response value when it is falsy (undefined as on a bare array,
but also null, false, 0 or the empty string); in particular a wrapper
response holding a task array yields exactly that array, and a bare
array response yields itself. -/
theorem listShape_branches (data : JsVal) (ts : List JsVal) :
    ((data.getField "results").truthy = true →
      fetchTasksParse data = data.getField "results") ∧
    ((data.getField "results").truthy = false → fetchTasksParse data = data) ∧
    fetchTasksParse (JsVal.jobj [("results", JsVal.jarr ts)]) = JsVal.jarr ts ∧
    fetchTasksParse (JsVal.jarr ts) = JsVal.jarr ts := by
  refine ⟨?_, ?_, rfl, rfl⟩ <;> intro h <;> simp [fetchTasksParse, jsOr, h]

/-- Claim C3 witness: the amended branches evaluated at the spec's two
scenarios, a wrapper holding a two-element array and a bare one-element
array. -/
theorem listShape_branches_witness :
    ((JsVal.jobj [("results", JsVal.jarr [JsVal.jnum 1, JsVal.jnum 2])]).getField
        "results").truthy = true ∧
    fetchTasksParse
        (JsVal.jobj [("results", JsVal.jarr [JsVal.jnum 1, JsVal.jnum 2])]) =
      (JsVal.jobj [("results", JsVal.jarr [JsVal.jnum 1, JsVal.jnum 2])]).getField
        "results" ∧
    ((JsVal.jarr [JsVal.jnum 3]).getField "results").truthy = false ∧
    fetchTasksParse (JsVal.jarr [JsVal.jnum 3]) = JsVal.jarr [JsVal.jnum 3] :=
  ⟨rfl,
   (listShape_branches
      (JsVal.jobj [("results", JsVal.jarr [JsVal.jnum 1, JsVal.jnum 2])]) []).1 rfl,
   rfl,
   (listShape_branches (JsVal.jarr [JsVal.jnum 3]) []).2.1 rfl⟩

/-- Claim C9: the parse chooses the fallback branch by the TRUTHINESS of
the `results` field, not by its presence: for any wrapper object whose
`results` field is present but falsy (null in particular), the stored
collection is the entire wrapper object itself — not an empty list. -/
theorem listShape_truthiness_not_presence (v : JsVal) (rest : List (String × JsVal))
    (hfalsy : v.truthy = false) :
    fetchTasksParse (JsVal.jobj (("results", v) :: rest)) =
      JsVal.jobj (("results", v) :: rest) ∧
    fetchTasksParse (JsVal.jobj [("results", JsVal.jnull)]) =
      JsVal.jobj [("results", JsVal.jnull)] ∧
    fetchTasksParse (JsVal.jobj [("results", JsVal.jnull)]) ≠ JsVal.jarr [] := by
  refine ⟨?_, rfl, fun h => nomatch h⟩
  have hget : (JsVal.jobj (("results", v) :: rest)).getField "results" = v := rfl
  simp [fetchTasksParse, jsOr, hget, hfalsy]

/-- Claim C9 witness: the null-results wrapper evaluated concretely. -/
theorem listShape_truthiness_witness :
    JsVal.truthy JsVal.jnull = false ∧
    fetchTasksParse (JsVal.jobj [("results", JsVal.jnull)]) =
      JsVal.jobj [("results", JsVal.jnull)] :=
  ⟨rfl, (listShape_truthiness_not_presence JsVal.jnull [] rfl).1⟩

/-- Claim C7: when the delete confirmation is declined, no request is
issued and the whole state (the task collection in particular) is
unchanged; and a delete request only ever appears among the issued
requests when the confirmation was accepted. -/
theorem delete_requires_confirmation (s : AppState) (taskId : Nat)
    (deleteOk fetchOk : Bool) (serverTasks : List Task) :
    handleDeleteTask s taskId false deleteOk fetchOk serverTasks = (s, []) ∧
    (∀ confirmed : Bool,
      Request.deleteTaskReq taskId ∈
          (handleDeleteTask s taskId confirmed deleteOk fetchOk serverTasks).2 →
        confirmed = true) := by
  refine ⟨rfl, ?_⟩
  intro confirmed hmem
  cases confirmed
  · simp [handleDeleteTask] at hmem
  · rfl

/-- Claim C7 witness: on an accepted confirmation the delete request is
issued, and the theorem instantiated there concludes. -/
theorem delete_requires_confirmation_witness :
    (Request.deleteTaskReq 5 ∈ (handleDeleteTask baseState 5 true true true []).2) ∧
    (true : Bool) = true :=
  ⟨by simp [handleDeleteTask, fetchTasks],
   (delete_requires_confirmation baseState 5 true true []).2 true
     (by simp [handleDeleteTask, fetchTasks])⟩

/-- Claim C10: for any status value outside the three known statuses,
`getStatusInfo` totally falls back to the first option, so such a task
renders with the To Do label and its color rather than failing. -/
theorem statusInfo_falls_back (statusValue : String)
    (h : statusValue ∉ (["TO_DO", "IN_PROGRESS", "DONE"] : List String)) :
    getStatusInfo statusValue =
      { value := "TO_DO", label := "To Do", color := "#ffbe0b" } ∧
    (getStatusInfo statusValue).label = "To Do" ∧
    (getStatusInfo statusValue).color = "#ffbe0b" := by
  simp only [List.mem_cons, List.not_mem_nil, or_false, not_or] at h
  obtain ⟨h1, h2, h3⟩ := h
  have e : statusOptions.find? (fun option => option.value == statusValue) = none := by
    rw [List.find?_eq_none]
    intro o ho
    fin_cases ho <;> simp [beq_iff_eq] <;>
      first
        | exact fun hh => h1 hh.symm
        | exact fun hh => h2 hh.symm
        | exact fun hh => h3 hh.symm
  have emain : getStatusInfo statusValue =
      { value := "TO_DO", label := "To Do", color := "#ffbe0b" } := by
    unfold getStatusInfo
    rw [e]
    rfl
  exact ⟨emain, by rw [emain], by rw [emain]⟩

/-- Claim C10 witness: an unknown status value rendered with the To Do
option. -/
theorem statusInfo_falls_back_witness :
    ("BOGUS" ∉ (["TO_DO", "IN_PROGRESS", "DONE"] : List String)) ∧
    getStatusInfo "BOGUS" =
      { value := "TO_DO", label := "To Do", color := "#ffbe0b" } :=
  ⟨by decide, (statusInfo_falls_back "BOGUS" (by decide)).1⟩

end SprintSync
